import Mathlib

/-!
Verification development for the `sentinel` repository
(`src/scripts/scrape_linkedin.py`).

The Python source is shallowly embedded: pure string tests become Lean
functions on `String`; every interaction with the outside world (the
selenium driver, the IMAP mailbox, wall-clock time) is an oracle field of
an explicit world structure, and the control flow of each Python function
is reproduced over those oracles.  Machine behaviour that the claims do
not touch (DOM layout, JSON serialization, the profile field extraction)
is out of scope, exactly as in the repository's own spec.
-/

/-! ## String helpers

Python's `needle in haystack` substring test and `str.lower`, modelled on
`List Char`. -/

/-- `startsWithList p s` is true iff `p` is a prefix of `s` (exact chars). -/
def startsWithList : List Char → List Char → Bool
  | [], _ => true
  | _ :: _, [] => false
  | a :: as, b :: bs => a == b && startsWithList as bs

/-- `containsList p s` is true iff `p` occurs as a contiguous sublist of `s`.
This is Python's `p in s` for strings. -/
def containsList (p : List Char) : List Char → Bool
  | [] => startsWithList p []
  | c :: rest => startsWithList p (c :: rest) || containsList p rest

/-- Python `pat in hay` on strings. -/
def hasSubstr (hay pat : String) : Bool :=
  containsList pat.toList hay.toList

/-- Python `s.lower()` (ASCII case folding suffices for the markers used). -/
def lowerStr (s : String) : String :=
  String.mk (s.toList.map Char.toLower)

/-- Python `pat in hay.lower()` for a lowercase pattern `pat`. -/
def containsCI (hay pat : String) : Bool :=
  hasSubstr (lowerStr hay) pat

/-! ## Login page-state classification (`login_to_linkedin`, lines 260-309)

After the credential submission settles, the code inspects
`driver.current_url`, one optional error element, and the first 2000
characters of `driver.page_source`, in a fixed order of checks. -/

/-- The tagged outcome of one login attempt, one constructor per `return`
site of the classification block of `login_to_linkedin`. -/
inductive LoginOutcome where
  /-- line 266: `"feed" in current_url or "mynetwork" in current_url or "/in/" in current_url` -/
  | success
  /-- line 271: `"checkpoint" in current_url` -/
  | checkpointRequired
  /-- line 276: `"challenge" in current_url` -/
  | captchaRequired
  /-- line 281: `"two-step-verification" in current_url or "verification" in current_url` -/
  | twoFactorRequired
  /-- line 287: an error element is present; its text is carried verbatim -/
  | invalidCredentials (errorText : String)
  /-- line 300: still on login page and page source mentions incorrect/wrong -/
  | bodyIncorrect
  /-- line 302: still on login page and page source mentions recognize -/
  | bodyNotRecognize
  /-- line 306: still on login page, no recognisable body text -/
  | stillOnLogin
  /-- line 309: none of the above -/
  | unknownFailure (url : String)
  deriving DecidableEq, Repr

/-- The post-login success test of `login_to_linkedin` (line 266). -/
def loginSuccessUrl (url : String) : Bool :=
  hasSubstr url "feed" || hasSubstr url "mynetwork" || hasSubstr url "/in/"

/-- The success test of the verification-code submission branch of
`scrape_with_session` (line 638): note it tests only `"feed"` and `"/in/"`. -/
def submitSuccessUrl (url : String) : Bool :=
  hasSubstr url "feed" || hasSubstr url "/in/"

/-- Classification of the post-login page state, lines 260-309 of the
source, in source order.  `errorText` is the text of the error element if
`driver.find_element` found one (line 287); `pageSource` is the
`driver.page_source[:2000]` snapshot read at line 299. -/
def classifyPostLogin (url : String) (errorText : Option String)
    (pageSource : String) : LoginOutcome :=
  if loginSuccessUrl url then .success
  else if hasSubstr url "checkpoint" then .checkpointRequired
  else if hasSubstr url "challenge" then .captchaRequired
  else if hasSubstr url "two-step-verification" || hasSubstr url "verification" then
    .twoFactorRequired
  else
    match errorText with
    | some t => .invalidCredentials t
    | none =>
      if hasSubstr url "login" then
        if containsCI pageSource "incorrect" || containsCI pageSource "wrong" then
          .bodyIncorrect
        else if containsCI pageSource "recognize" then .bodyNotRecognize
        else .stillOnLogin
      else .unknownFailure url

/-! ## Verification-code extraction (`wait_for_verification_code`, lines 556-570)

The body of a matching email is run through an ordered list of regular
expressions, each searched with `re.search(..., re.IGNORECASE)`:

  1. `verification code:?\s*(\d{6})`
  2. `your code:?\s*(\d{6})`
  3. `code:?\s*(\d{6})`
  4. `(\d{6})\s*is your`

The first pattern in the list that matches anywhere in the body wins, and
its 6-digit group is returned.  Each pattern is a literal keyword, an
optional colon, a run of whitespace and a 6-digit group (or, for the
fourth, the group first); for such patterns Python's leftmost-search with
greedy `\s*` is equivalent to the deterministic matcher below, because a
digit is never whitespace and `:` is neither. -/

/-- Python's `\s` character class (ASCII part). -/
def isSpaceCh (c : Char) : Bool :=
  c == ' ' || c == '\t' || c == '\n' || c == '\r' || c == '\x0b' || c == '\x0c'

/-- Drop a case-insensitive literal prefix, returning the rest on success. -/
def dropPrefixCI : List Char → List Char → Option (List Char)
  | [], s => some s
  | _ :: _, [] => none
  | p :: ps, c :: cs => if p.toLower == c.toLower then dropPrefixCI ps cs else none

/-- Match `(\d{6})` at the head of the list: the first six characters must
all be digits (further digits after them are permitted, as in the regex). -/
def takeSixDigits : List Char → Option String
  | c1 :: c2 :: c3 :: c4 :: c5 :: c6 :: _ =>
    if c1.isDigit && c2.isDigit && c3.isDigit && c4.isDigit && c5.isDigit && c6.isDigit then
      some (String.mk [c1, c2, c3, c4, c5, c6])
    else none
  | _ => none

/-- Match `key:?\s*(\d{6})` anchored at the head of `s` (case-insensitive
keyword), returning the captured digit group. -/
def matchKeyAt (key : List Char) (s : List Char) : Option String :=
  match dropPrefixCI key s with
  | none => none
  | some r =>
    let r1 := match r with
      | ':' :: t => t
      | _ => r
    takeSixDigits (r1.dropWhile isSpaceCh)

/-- Match `(\d{6})\s*is your` anchored at the head of `s`. -/
def matchIsYourAt (s : List Char) : Option String :=
  match takeSixDigits s with
  | none => none
  | some code =>
    if (dropPrefixCI "is your".toList ((s.drop 6).dropWhile isSpaceCh)).isSome then
      some code
    else none

/-- `re.search`: try the anchored matcher at every position, leftmost first. -/
def searchAux (f : List Char → Option String) : List Char → Option String
  | [] => f []
  | c :: rest =>
    match f (c :: rest) with
    | some r => some r
    | none => searchAux f rest

/-- Search for `key:?\s*(\d{6})` anywhere in `body`. -/
def searchKey (key : String) (body : String) : Option String :=
  searchAux (matchKeyAt key.toList) body.toList

/-- Search for `(\d{6})\s*is your` anywhere in `body`. -/
def searchIsYour (body : String) : Option String :=
  searchAux matchIsYourAt body.toList

/-- The `code_patterns` list of the source (lines 557-562), in order. -/
def code_patterns : List (String → Option String) :=
  [searchKey "verification code", searchKey "your code", searchKey "code", searchIsYour]

/-- The extraction loop of `wait_for_verification_code` (lines 564-570):
the first pattern that matches returns its captured group. -/
def extractVerificationCode (body : String) : Option String :=
  code_patterns.findSome? (fun p => p body)

/-- Modelled from the spec's contrast clause ("not the earliest 6-digit
string by position"): the leftmost run of six digits in the body. -/
def firstSixDigitGroup (body : String) : Option String :=
  searchAux takeSixDigits body.toList

/-! ## The polling loop of `wait_for_verification_code` (lines 513-581)

The loop is `while time.time() - start_time < timeout:`; each iteration
performs one full mailbox round trip (IMAP connect, login, select, search,
fetch, extraction) and then, if no code was returned, `time.sleep(3)`.
Wall-clock time is embedded through an oracle: `MailTick.connectDelta` is
the real duration of the round trip of one iteration, and
`MailTick.found` is the code that iteration extracts (if any).  Elapsed
time is tracked explicitly; the `time.sleep(check_interval)` adds 3 to it.
When the oracle list runs out, further iterations behave as instant,
empty round trips. -/

/-- One iteration's oracle: how long the mailbox round trip takes and
whether a verification code is extracted during it. -/
structure MailTick where
  connectDelta : Nat
  found : Option String
  deriving DecidableEq, Repr

/-- The largest round-trip duration occurring in the oracle list. -/
def maxDelta : List MailTick → Nat
  | [] => 0
  | t :: rest => max t.connectDelta (maxDelta rest)

/-- The polling loop: `t` is the elapsed wall-clock time since
`start_time`.  The deadline test at the loop head is the source's
`while time.time() - start_time < timeout`; a found code is returned
immediately after the round trip (no sleep), otherwise the loop sleeps
`check_interval = 3` and re-tests.  Returns the elapsed time at which the
function returns, paired with the returned code. -/
def pollAux (timeout t : Nat) (ticks : List MailTick) : Nat × Option String :=
  if _h : t < timeout then
    match (ticks.headD ⟨0, none⟩).found with
    | some c => (t + (ticks.headD ⟨0, none⟩).connectDelta, some c)
    | none => pollAux timeout (t + (ticks.headD ⟨0, none⟩).connectDelta + 3) ticks.tail
  else (t, none)
termination_by timeout - t
decreasing_by omega

/-- `wait_for_verification_code`, timing view: started at elapsed time 0. -/
def wait_for_verification_code (timeout : Nat) (ticks : List MailTick) :
    Nat × Option String :=
  pollAux timeout 0 ticks

/-! ## `load_cookies_to_driver` (lines 449-487)

`if not cookies: return False`; navigation to the site (which can fail
wholesale: the outer `except` then returns `False`); one `try` per cookie
so a rejected cookie is skipped; afterwards the line
`print(f"Loaded {len(cookies)} cookies into driver")` reports `len(cookies)`
— the number of cookies supplied — and the function returns `True`. -/

/-- A session cookie; only identity matters for the claims. -/
structure Cookie where
  name : String
  value : String
  deriving DecidableEq, Repr

/-- Oracles for one call to `load_cookies_to_driver`: whether the initial
navigation succeeds, and whether the driver accepts the i-th cookie
(`driver.add_cookie` not raising).  Missing entries default to accepted. -/
structure CookieLoadW where
  navOk : Bool
  accept : List Bool
  deriving DecidableEq, Repr

/-- What a call to `load_cookies_to_driver` produces: its return value,
the count named in the `Loaded ... cookies into driver` diagnostic (none
when that line is never reached), and how many cookies the driver
actually accepted. -/
structure LoadOut where
  ret : Bool
  reported : Option Nat
  accepted : Nat
  deriving DecidableEq, Repr

/-- Number of cookies whose injection succeeded. -/
def acceptedCount (n : Nat) (flags : List Bool) : Nat :=
  (List.range n).countP (fun i => flags.getD i true)

/-- `load_cookies_to_driver`, lines 449-487. -/
def load_cookies_to_driver (cookies : List Cookie) (w : CookieLoadW) : LoadOut :=
  if cookies.isEmpty then ⟨false, none, 0⟩
  else if !w.navOk then ⟨false, none, 0⟩
  else ⟨true, some cookies.length, acceptedCount cookies.length w.accept⟩

/-! ## `scrape_with_session` (lines 584-768)

The orchestrator: try cookies, else login, else email verification.  All
driver and network behaviour is oracled in `SWorld`; the control flow,
the literal error strings and error types, and the `finally: driver.quit()`
are reproduced from the source.  `login_to_linkedin` appears here through
its returned pair (`loginRes`), which is an oracle of this world; the
function itself catches every exception it raises (line 311), so it always
returns a pair. -/

/-- Python truthiness of an optional string (`None` and `""` are falsy). -/
def truthyOptStr : Option String → Bool
  | none => false
  | some s => !s.isEmpty

/-- Python truthiness of the optional cookie list (`None` and `[]` falsy). -/
def truthyCookies : Option (List Cookie) → Bool
  | none => false
  | some cs => !cs.isEmpty

/-- Python `a or default` for an optional string `a`. -/
def pyOr (a : Option String) (default : String) : String :=
  match a with
  | some s => if s.isEmpty then default else s
  | none => default

/-- The exception classifier shared by `scrape_profile` (lines 425-432) and
`scrape_with_session` (lines 747-754). -/
def classifyExc (msg : String) : String :=
  if containsCI msg "rate" || containsCI msg "limit" then "RATE_LIMITED"
  else if containsCI msg "auth" || containsCI msg "login" then "AUTH_FAILED"
  else if containsCI msg "not found" || hasSubstr msg "404" then "PROFILE_NOT_FOUND"
  else "SCRAPE_ERROR"

/-- Oracles for one run of `scrape_with_session`. -/
structure SWorld where
  /-- `setup_driver()` returns without raising -/
  setupOk : Bool
  /-- exception text if `setup_driver()` raises -/
  setupErr : String
  /-- oracles consumed by `load_cookies_to_driver` (its result is ignored
  by the caller, line 597) -/
  cookieLoad : CookieLoadW
  /-- `driver.current_url` after navigating to the profile with injected
  cookies (line 604) -/
  urlAfterCookieNav : String
  /-- the pair returned by `login_to_linkedin` (line 613) -/
  loginRes : Bool × Option String
  /-- `driver.current_url` at the verification test (line 617) -/
  urlAfterLogin : String
  /-- what `wait_for_verification_code` returns (line 624) -/
  pollerCode : Option String
  /-- locating/filling/submitting the code input raises no exception -/
  codeSubmitOk : Bool
  /-- exception text when it does -/
  codeSubmitErr : String
  /-- `driver.current_url` after submitting the code (line 638) -/
  urlAfterSubmit : String
  /-- `driver.get_cookies()` at line 674, bound to `new_cookies`; it is
  computed but never returned, because the scrape step below always raises
  (see `finishScrape`) and the `except` return carries no cookies field -/
  driverCookies : List Cookie
  deriving DecidableEq, Repr

/-- The response dict of `scrape_with_session`, restricted to the fields
the claims are about.  The `ok` constructor models the shape of the
success dict of lines 725-745; that return is dead code in
`scrape_with_session` (see `finishScrape`), so the function only ever
produces `err`. -/
inductive SessionResult where
  | ok (cookies : List Cookie)
  | err (errorType : String) (error : String)
  deriving DecidableEq, Repr

/-- One run of `scrape_with_session` with its observable effects. -/
structure SessionRun where
  result : SessionResult
  /-- `setup_driver()` returned a browsing context -/
  driverCreated : Bool
  /-- `login_to_linkedin` was invoked -/
  loginAttempted : Bool
  /-- `wait_for_verification_code` was invoked -/
  polled : Bool
  /-- `driver.quit()` was invoked (the `finally` block, lines 763-768) -/
  quitCalled : Bool
  deriving DecidableEq, Repr

/-- The session-validity test of lines 595-608: cookies were supplied and
truthy, and after injection the navigation to the profile resolved to a
location containing neither `login` nor `checkpoint`.  When false, the
code sets `cookies = None` and falls through to the login branch. -/
def cookieSessionValid (cookies : Option (List Cookie)) (w : SWorld) : Bool :=
  truthyCookies cookies &&
    (!hasSubstr w.urlAfterCookieNav "login" && !hasSubstr w.urlAfterCookieNav "checkpoint")

/-- The exception text of `Person(...)` at line 680 of
`scrape_with_session`: the `from linkedin_scraper import Person` at line
328 is local to `scrape_profile`, so in `scrape_with_session` the name
`Person` is unbound and line 680 always raises this `NameError`. -/
def personNameError : String := "name \x27Person\x27 is not defined"

/-- Lines 673-745: save the driver's cookies (line 674, discarded), then
scrape.  The `Person(...)` call at line 680 always raises `NameError`
(see `personNameError`), so the success return of lines 725-745 is dead
code: the `except` block (lines 747-761) classifies the message — which
matches none of rate/limit/auth/login/not found/404 — as `SCRAPE_ERROR`.
`finally` always quits the created driver. -/
def finishScrape (_w : SWorld) (loginAttempted polled : Bool) : SessionRun :=
  { result := .err (classifyExc personNameError) personNameError, driverCreated := true,
    loginAttempted := loginAttempted, polled := polled, quitCalled := true }

/-- An early `return {...}` from inside the `try` of `scrape_with_session`
(the driver exists, so `finally` quits it). -/
def earlyErr (t m : String) (loginAttempted polled : Bool) : SessionRun :=
  { result := .err t m, driverCreated := true,
    loginAttempted := loginAttempted, polled := polled, quitCalled := true }

/-- `scrape_with_session`, lines 584-768. -/
def scrape_with_session (_linkedinUrl : Option String)
    (_email _password : Option String) (cookies : Option (List Cookie))
    (gmailEmail gmailAppPassword : Option String) (w : SWorld) : SessionRun :=
  if !w.setupOk then
    { result := .err (classifyExc w.setupErr) w.setupErr, driverCreated := false,
      loginAttempted := false, polled := false, quitCalled := false }
  else if cookieSessionValid cookies w then
    finishScrape w false false
  else if w.loginRes.1 then
    finishScrape w true false
  else if hasSubstr w.urlAfterLogin "checkpoint" || hasSubstr w.urlAfterLogin "verification" then
    if truthyOptStr gmailEmail && truthyOptStr gmailAppPassword then
      match w.pollerCode with
      | some _ =>
        if !w.codeSubmitOk then
          earlyErr "VERIFICATION_ERROR"
            ("Failed to submit verification code: " ++ w.codeSubmitErr) true true
        else if submitSuccessUrl w.urlAfterSubmit then
          finishScrape w true true
        else
          earlyErr "VERIFICATION_FAILED" "Verification code submission failed" true true
      | none => earlyErr "NO_VERIFICATION_CODE" "No verification code received" true true
    else
      earlyErr "VERIFICATION_REQUIRED"
        (pyOr w.loginRes.2 "Verification required but no Gmail credentials provided") true false
  else
    earlyErr "AUTH_FAILED" (pyOr w.loginRes.2 "Failed to login to LinkedIn") true false

/-! ## `scrape_profile` (lines 316-446), the legacy path -/

/-- Oracles for one run of `scrape_profile`. -/
structure PWorld where
  setupOk : Bool
  setupErr : String
  loginRes : Bool × Option String
  scrapeOk : Bool
  scrapeErr : String
  deriving DecidableEq, Repr

/-- The response dict of `scrape_profile` (no cookies field). -/
inductive ProfileResult where
  | ok
  | err (errorType : String) (error : String)
  deriving DecidableEq, Repr

/-- One run of `scrape_profile` with its observable effects. -/
structure ProfileRun where
  result : ProfileResult
  driverCreated : Bool
  /-- the `finally` block, lines 441-446 -/
  quitCalled : Bool
  deriving DecidableEq, Repr

/-- `scrape_profile`, lines 316-446.  `argEmail`/`argPassword` come from
the caller, `envEmail`/`envPassword` from the environment (`email or
os.environ.get(...)`, lines 331-332). -/
def scrape_profile (_linkedinUrl : String)
    (argEmail argPassword envEmail envPassword : Option String)
    (w : PWorld) : ProfileRun :=
  let email := if truthyOptStr argEmail then argEmail else envEmail
  let password := if truthyOptStr argPassword then argPassword else envPassword
  if !truthyOptStr email || !truthyOptStr password then
    { result := .err "AUTH_MISSING"
        "LinkedIn credentials not provided. Set LINKEDIN_EMAIL and LINKEDIN_PASSWORD environment variables.",
      driverCreated := false, quitCalled := false }
  else if !w.setupOk then
    { result := .err (classifyExc w.setupErr) w.setupErr,
      driverCreated := false, quitCalled := false }
  else if !w.loginRes.1 then
    { result := .err "AUTH_FAILED" (pyOr w.loginRes.2 "Failed to login to LinkedIn"),
      driverCreated := true, quitCalled := true }
  else if w.scrapeOk then
    { result := .ok, driverCreated := true, quitCalled := true }
  else
    { result := .err (classifyExc w.scrapeErr) w.scrapeErr,
      driverCreated := true, quitCalled := true }

/-! ## `main` (lines 771-843)

Two modes.  With `--stdin` the request JSON is read from stdin: a parse
failure is rejected as `INPUT_ERROR` before anything else runs, but a
successfully parsed request is handed to `scrape_with_session` with
whatever `input_data.get('url')` returned — `None` included.  In the
legacy command-line mode a missing positional URL is rejected as
`INVALID_INPUT` and a URL without `linkedin.com` as `INVALID_URL`, both
before `scrape_profile` runs. -/

/-- The parsed stdin request (each field is `input_data.get(...)`). -/
structure Request where
  url : Option String
  email : Option String
  password : Option String
  cookies : Option (List Cookie)
  gmailEmail : Option String
  gmailAppPassword : Option String
  deriving DecidableEq, Repr

/-- What arrives on stdin: valid JSON parsing to a request, or not. -/
inductive StdinData where
  | malformed (msg : String)
  | parsed (req : Request)
  deriving DecidableEq, Repr

/-- The process-boundary observables of one `main` run. -/
structure MainRun where
  success : Bool
  errorType : Option String
  exitCode : Nat
  driverCreated : Bool
  deriving DecidableEq, Repr

/-- `success` field of a session response. -/
def successOf : SessionResult → Bool
  | .ok _ => true
  | .err _ _ => false

/-- `error_type` field of a session response. -/
def errTypeOf : SessionResult → Option String
  | .ok _ => none
  | .err t _ => some t

/-- `main` in `--stdin` mode, lines 781-810. -/
def main_stdin (sd : StdinData) (w : SWorld) : MainRun :=
  match sd with
  | .malformed _ =>
    { success := false, errorType := some "INPUT_ERROR", exitCode := 1,
      driverCreated := false }
  | .parsed r =>
    let run := scrape_with_session r.url r.email r.password r.cookies
      r.gmailEmail r.gmailAppPassword w
    { success := successOf run.result, errorType := errTypeOf run.result,
      exitCode := if successOf run.result then 0 else 1,
      driverCreated := run.driverCreated }

/-- `main` in legacy command-line mode, lines 812-843. -/
def main_legacy (linkedinUrl : Option String)
    (argEmail argPassword envEmail envPassword : Option String)
    (w : PWorld) : MainRun :=
  if !truthyOptStr linkedinUrl then
    { success := false, errorType := some "INVALID_INPUT", exitCode := 1,
      driverCreated := false }
  else
    let u := linkedinUrl.getD ""
    if !hasSubstr u "linkedin.com" then
      { success := false, errorType := some "INVALID_URL", exitCode := 1,
        driverCreated := false }
    else
      let run := scrape_profile u argEmail argPassword envEmail envPassword w
      { success := (match run.result with | .ok => true | .err _ _ => false),
        errorType := (match run.result with | .ok => none | .err t _ => some t),
        exitCode := (match run.result with | .ok => 0 | .err _ _ => 1),
        driverCreated := run.driverCreated }

/-! ## Diagnostic output of `login_to_linkedin` (lines 135-313)

Every `print(..., file=sys.stderr)` of the login flow is modelled as a
line of segments: literal text from the f-string, and interpolated
values.  Interpolated values are kept structured (`LogVal`) so that we can
state which runtime values reach the diagnostics; `render` flattens a
line to the emitted string. -/

/-- A value interpolated into an f-string: a string, or a number (the
source interpolates `len(password)` and `len(entered_value)`, never the
password itself). -/
inductive LogVal where
  | vstr (s : String)
  | vnat (n : Nat)
  deriving DecidableEq, Repr

/-- One segment of a diagnostic line. -/
inductive Seg where
  | lit (s : String)
  | arg (v : LogVal)
  deriving DecidableEq, Repr

/-- A diagnostic line as the source builds it. -/
abbrev DiagLine := List Seg

/-- Render one segment to text. -/
def renderSeg : Seg → String
  | .lit s => s
  | .arg (.vstr s) => s
  | .arg (.vnat n) => toString n

/-- The emitted text of a diagnostic line. -/
def render (d : DiagLine) : String :=
  String.join (d.map renderSeg)

/-- Oracles for one call to `login_to_linkedin`. -/
structure LoginWorld where
  /-- `driver.current_url` on the login page (line 147) -/
  urlAtLogin : String
  /-- `driver.title` on the login page (line 148) -/
  titleAtLogin : String
  /-- the email `WebDriverWait` finds the field (line 176) -/
  emailFieldFound : Bool
  /-- exception text when it does not -/
  emailFieldErr : String
  /-- `email_field.get_attribute('value')` after the JS write (line 186) -/
  emailReadback1 : String
  /-- the read-back after the ActionChains fallback (line 200) -/
  emailReadback2 : String
  pwFieldFound : Bool
  pwFieldErr : String
  pwReadback1 : String
  pwReadback2 : String
  /-- clicking the submit button raises no exception (line 250) -/
  buttonOk : Bool
  buttonErr : String
  /-- `driver.current_url` after the settle wait (line 261) -/
  postUrl : String
  /-- `driver.title` after the settle wait (line 263) -/
  postTitle : String
  /-- text of the error element, when one is found (line 287) -/
  errorElemText : Option String
  /-- `driver.page_source[:2000]` (line 299) -/
  pageSource : String
  deriving DecidableEq, Repr

/-- Lines 142-174: the four diagnostics before the email field is touched. -/
def preambleDiags (w : LoginWorld) : List DiagLine :=
  [ [.lit "Navigating to LinkedIn login page..."],
    [.lit "Current URL: ", .arg (.vstr w.urlAtLogin)],
    [.lit "Page title: ", .arg (.vstr w.titleAtLogin)],
    [.lit "Looking for email field..."] ]

/-- Lines 175-208: the email-field phase.  Note line 187 interpolates the
caller's `email` argument itself into the diagnostic. -/
def emailPhaseDiags (email : String) (w : LoginWorld) : List DiagLine :=
  if w.emailFieldFound then
    [ [.lit "Email entered via JS: ", .arg (.vstr email)],
      [.lit "Email field value: ", .arg (.vstr w.emailReadback1)] ] ++
    (if w.emailReadback1.isEmpty then
      [ [.lit "JS failed, trying ActionChains..."],
        [.lit "Email field value after ActionChains: ", .arg (.vstr w.emailReadback2)] ]
     else [])
  else
    [ [.lit "Failed to find/fill email field: ", .arg (.vstr w.emailFieldErr)] ]

/-- `entered_value` at the end of the email phase. -/
def emailEntered (w : LoginWorld) : String :=
  if w.emailReadback1.isEmpty then w.emailReadback2 else w.emailReadback1

/-- The email phase reaches line 210 without returning. -/
def emailPhaseOk (w : LoginWorld) : Bool :=
  w.emailFieldFound && !(emailEntered w).isEmpty

/-- Lines 211-245: the password-field phase.  Only `len(password)` and
`len(entered_value)` are interpolated (lines 224-225, 238). -/
def pwPhaseDiags (password : String) (w : LoginWorld) : List DiagLine :=
  [ [.lit "Looking for password field..."] ] ++
  (if w.pwFieldFound then
    [ [.lit "Password entered via JS (length: ", .arg (.vnat password.length), .lit ")"],
      [.lit "Password field length: ", .arg (.vnat w.pwReadback1.length)] ] ++
    (if w.pwReadback1.isEmpty then
      [ [.lit "JS failed for password, trying ActionChains..."],
        [.lit "Password field length after ActionChains: ",
         .arg (.vnat w.pwReadback2.length)] ]
     else [])
   else
    [ [.lit "Failed to find/fill password field: ", .arg (.vstr w.pwFieldErr)] ])

/-- `entered_value` at the end of the password phase. -/
def pwEntered (w : LoginWorld) : String :=
  if w.pwReadback1.isEmpty then w.pwReadback2 else w.pwReadback1

/-- The password phase reaches line 247 without returning. -/
def pwPhaseOk (w : LoginWorld) : Bool :=
  w.pwFieldFound && !(pwEntered w).isEmpty

/-- Lines 248-254: the submit-button phase. -/
def buttonDiags (w : LoginWorld) : List DiagLine :=
  [ [.lit "Clicking login button..."] ] ++
  (if w.buttonOk then []
   else [ [.lit "Failed to click login button: ", .arg (.vstr w.buttonErr)] ])

/-- The one diagnostic printed by the classification block, per outcome
(lines 267-308); the URL diagnostics interpolate `driver.current_url`. -/
def classifyDiag (w : LoginWorld) : DiagLine :=
  match classifyPostLogin w.postUrl w.errorElemText w.pageSource with
  | .success => [.lit "Login successful! Redirected to: ", .arg (.vstr w.postUrl)]
  | .checkpointRequired => [.lit "Security checkpoint detected!"]
  | .captchaRequired => [.lit "CAPTCHA challenge detected!"]
  | .twoFactorRequired => [.lit "2FA verification required!"]
  | .invalidCredentials t => [.lit "Login error message: ", .arg (.vstr t)]
  | .bodyIncorrect => [.lit "Still on login page - credentials may be wrong"]
  | .bodyNotRecognize => [.lit "Still on login page - credentials may be wrong"]
  | .stillOnLogin => [.lit "Still on login page - credentials may be wrong"]
  | .unknownFailure _ => [.lit "Unexpected post-login state, URL: ", .arg (.vstr w.postUrl)]

/-- Lines 256-263 plus the classification diagnostic. -/
def postDiags (w : LoginWorld) : List DiagLine :=
  [ [.lit "Waiting for login to complete..."],
    [.lit "Post-login URL: ", .arg (.vstr w.postUrl)],
    [.lit "Post-login title: ", .arg (.vstr w.postTitle)],
    classifyDiag w ]

/-- The `(bool, error)` pair of each classification return site. -/
def outcomePair : LoginOutcome → Bool × Option String
  | .success => (true, none)
  | .checkpointRequired =>
    (false, some "LinkedIn security checkpoint - account may need verification")
  | .captchaRequired =>
    (false, some "CAPTCHA challenge - LinkedIn blocking automated access")
  | .twoFactorRequired =>
    (false, some "Two-factor authentication required - disable 2FA on this account")
  | .invalidCredentials t => (false, some ("LinkedIn error: " ++ t))
  | .bodyIncorrect => (false, some "Incorrect email or password")
  | .bodyNotRecognize => (false, some "LinkedIn doesn\x27t recognize this email")
  | .stillOnLogin => (false, some "Login failed - still on login page")
  | .unknownFailure u => (false, some ("Unexpected state after login attempt: " ++ u))

/-- `login_to_linkedin`, lines 135-313: the diagnostics it emits and the
pair it returns. -/
def login_to_linkedin (email password : String) (w : LoginWorld) :
    List DiagLine × (Bool × Option String) :=
  let ds0 := preambleDiags w ++ emailPhaseDiags email w
  if !emailPhaseOk w then
    (ds0, (false, some (if w.emailFieldFound then
      "Could not enter email - anti-automation blocking input"
    else "Could not find email input field: " ++ w.emailFieldErr)))
  else
    let ds1 := ds0 ++ pwPhaseDiags password w
    if !pwPhaseOk w then
      (ds1, (false, some (if w.pwFieldFound then
        "Could not enter password - anti-automation blocking input"
      else "Could not find password input field: " ++ w.pwFieldErr)))
    else
      let ds2 := ds1 ++ buttonDiags w
      if !w.buttonOk then
        (ds2, (false, some "Could not click login button"))
      else
        (ds2 ++ postDiags w,
         outcomePair (classifyPostLogin w.postUrl w.errorElemText w.pageSource))

/-- The string-valued interpolations of one diagnostic line. -/
def strArgsOfLine (d : DiagLine) : List String :=
  d.foldr (fun s acc => match s with | .arg (.vstr v) => v :: acc | _ => acc) []

/-- All string-valued interpolations of a diagnostic list. -/
def strArgs (ds : List DiagLine) : List String :=
  ds.foldr (fun d acc => strArgsOfLine d ++ acc) []

/-- Every runtime string `login_to_linkedin` can interpolate into a
diagnostic: the caller's email and the driver-observed oracle strings.
The password is absent — only its length is ever interpolated. -/
def loginOracleStrings (email : String) (w : LoginWorld) : List String :=
  [email, w.urlAtLogin, w.titleAtLogin, w.emailReadback1, w.emailReadback2,
   w.emailFieldErr, w.pwFieldErr, w.buttonErr, w.postUrl, w.postTitle,
   w.errorElemText.getD ""]

/-! ## Claim C1 -/

/-- Claim C1, counterexample: the destination URL
`https://www.linkedin.com/in/checkpoint-login` contains a checkpoint
marker and the login marker, yet `login_to_linkedin` classifies it as
`success`, because the post-login-area test of line 266 ranks above the
checkpoint test; the claimed "checkpoint outcome is produced" fails. -/
theorem c1_checkpoint_counterexample :
    hasSubstr "https://www.linkedin.com/in/checkpoint-login" "checkpoint" = true ∧
    hasSubstr "https://www.linkedin.com/in/checkpoint-login" "login" = true ∧
    classifyPostLogin "https://www.linkedin.com/in/checkpoint-login" none "" =
      LoginOutcome.success := by
  decide

/-- Claim C1 (amended): the rules are evaluated in the fixed source order,
so for every destination URL containing a checkpoint, challenge, or
verification marker together with the login marker but none of the
post-login success markers, the checkpoint/challenge/2FA outcome is
produced; and whenever such a marker is present, the generic
"still on login page" inference (and its body-text refinements) is never
produced, for any error-element and page-source observation. -/
theorem c1_checkpoint_over_login_amended :
    ∀ (url : String) (errT : Option String) (ps : String),
    (hasSubstr url "checkpoint" || hasSubstr url "challenge" ||
      hasSubstr url "verification") = true →
    (hasSubstr url "login" = true → loginSuccessUrl url = false →
      (classifyPostLogin url errT ps = .checkpointRequired ∨
       classifyPostLogin url errT ps = .captchaRequired ∨
       classifyPostLogin url errT ps = .twoFactorRequired)) ∧
    (classifyPostLogin url errT ps ≠ .stillOnLogin ∧
     classifyPostLogin url errT ps ≠ .bodyIncorrect ∧
     classifyPostLogin url errT ps ≠ .bodyNotRecognize) := by
  intro url errT ps hm
  have hm' : hasSubstr url "checkpoint" = true ∨ hasSubstr url "challenge" = true ∨
      hasSubstr url "verification" = true := by
    rcases (Bool.or_eq_true _ _).mp hm with h0 | h0
    · rcases (Bool.or_eq_true _ _).mp h0 with h0 | h0 <;> tauto
    · tauto
  unfold classifyPostLogin
  by_cases h1 : loginSuccessUrl url = true
  · simp [h1]
  · rcases hm' with hc | hc | hc
    · simp [h1, hc]
    · by_cases h2 : hasSubstr url "checkpoint" = true
      · simp [h1, h2]
      · simp [h1, h2, hc]
    · by_cases h2 : hasSubstr url "checkpoint" = true
      · simp [h1, h2]
      · by_cases h3 : hasSubstr url "challenge" = true
        · simp [h1, h2, h3]
        · simp [h1, h2, h3, hc]

/-- Claim C1, witness for the amended theorem at a concrete checkpoint
URL that also contains the login marker. -/
theorem c1_witness :
    classifyPostLogin "https://www.linkedin.com/checkpoint/login-challenge" none "" =
        LoginOutcome.checkpointRequired ∨
      classifyPostLogin "https://www.linkedin.com/checkpoint/login-challenge" none "" =
        LoginOutcome.captchaRequired ∨
      classifyPostLogin "https://www.linkedin.com/checkpoint/login-challenge" none "" =
        LoginOutcome.twoFactorRequired :=
  (c1_checkpoint_over_login_amended
    "https://www.linkedin.com/checkpoint/login-challenge" none "" (by decide)).1
    (by decide) (by decide)

/-! ## Claim C6 -/

/-- Claim C6, counterexample: the two success predicates disagree on the
destination `https://www.linkedin.com/mynetwork/` — step (1) of
`login_to_linkedin` (line 266) accepts it, the re-classification after
code submission (line 638) does not, because the latter omits the
`mynetwork` marker. -/
theorem c6_predicates_counterexample :
    loginSuccessUrl "https://www.linkedin.com/mynetwork/" = true ∧
    submitSuccessUrl "https://www.linkedin.com/mynetwork/" = false := by
  decide

/-- Claim C6 (amended): the submission branch re-classifies the
destination with the narrower predicate testing only `feed` and `/in/`;
it implies the login-step predicate, and the two agree exactly on every
destination URL that does not contain `mynetwork`. -/
theorem c6_predicates_agree_amended :
    ∀ url : String,
    (submitSuccessUrl url = true → loginSuccessUrl url = true) ∧
    (hasSubstr url "mynetwork" = false → submitSuccessUrl url = loginSuccessUrl url) := by
  intro url
  unfold submitSuccessUrl loginSuccessUrl
  constructor
  · intro h
    cases hf : hasSubstr url "feed" <;> cases hi : hasSubstr url "/in/" <;>
      simp_all
  · intro hm
    rw [hm]
    cases hasSubstr url "feed" <;> cases hasSubstr url "/in/" <;> simp

/-- Claim C6, witness: on the feed URL both predicates agree (and the
implication fires). -/
theorem c6_witness :
    submitSuccessUrl "https://www.linkedin.com/feed/" =
      loginSuccessUrl "https://www.linkedin.com/feed/" :=
  (c6_predicates_agree_amended "https://www.linkedin.com/feed/").2 (by decide)

/-! ## Claim C2 -/

/-- Claim C2: the extraction loop returns the captured group of the first
pattern in `code_patterns` that matches anywhere in the body — pattern
priority, not position.  In particular, on a body whose leftmost 6-digit
group is a bare `654321` while `your code: 123456` appears later, the
extractor returns `123456`, even though `654321` is earlier by position. -/
theorem c2_extraction_priority :
    (∀ (body c : String), extractVerificationCode body = some c →
      searchKey "verification code" body = some c ∨
      (searchKey "verification code" body = none ∧
        (searchKey "your code" body = some c ∨
          (searchKey "your code" body = none ∧
            (searchKey "code" body = some c ∨
              (searchKey "code" body = none ∧ searchIsYour body = some c)))))) ∧
    extractVerificationCode "654321 was sent earlier. your code: 123456" =
      some "123456" ∧
    firstSixDigitGroup "654321 was sent earlier. your code: 123456" =
      some "654321" := by
  refine ⟨?_, by decide, by decide⟩
  intro body c h
  simp only [extractVerificationCode, code_patterns, List.findSome?] at h
  rcases e1 : searchKey "verification code" body with _ | v1
  · rcases e2 : searchKey "your code" body with _ | v2
    · rcases e3 : searchKey "code" body with _ | v3
      · rcases e4 : searchIsYour body with _ | v4
        · simp [e1, e2, e3, e4] at h
        · simp [e1, e2, e3, e4] at h
          subst h
          exact Or.inr ⟨rfl, Or.inr ⟨rfl, Or.inr ⟨rfl, rfl⟩⟩⟩
      · simp [e1, e2, e3] at h
        subst h
        exact Or.inr ⟨rfl, Or.inr ⟨rfl, Or.inl rfl⟩⟩
    · simp [e1, e2] at h
      subst h
      exact Or.inr ⟨rfl, Or.inl rfl⟩
  · simp [e1] at h
    subst h
    exact Or.inl rfl

/-- Claim C2, witness: the priority disjunction instantiated at the
claim's own example body. -/
theorem c2_witness :
    searchKey "verification code" "654321 was sent earlier. your code: 123456" =
        some "123456" ∨
      (searchKey "verification code" "654321 was sent earlier. your code: 123456" = none ∧
        (searchKey "your code" "654321 was sent earlier. your code: 123456" =
            some "123456" ∨
          (searchKey "your code" "654321 was sent earlier. your code: 123456" = none ∧
            (searchKey "code" "654321 was sent earlier. your code: 123456" =
                some "123456" ∨
              (searchKey "code" "654321 was sent earlier. your code: 123456" = none ∧
                searchIsYour "654321 was sent earlier. your code: 123456" =
                  some "123456"))))) :=
  c2_extraction_priority.1 "654321 was sent earlier. your code: 123456" "123456"
    (by decide)

/-! ## Claim C3 -/

/-- The tail of the oracle list never has a larger round trip. -/
theorem maxDelta_tail_le (ticks : List MailTick) : maxDelta ticks.tail ≤ maxDelta ticks := by
  cases ticks with
  | nil => simp
  | cons a rest => simp [maxDelta]

/-- The current iteration's round trip is bounded by the largest one. -/
theorem headD_delta_le (ticks : List MailTick) :
    (ticks.headD ⟨0, none⟩).connectDelta ≤ maxDelta ticks := by
  cases ticks with
  | nil => simp [maxDelta]
  | cons a rest => simp [maxDelta]

/-- Elapsed-time bound for the polling loop, by fuel induction on the
remaining budget `timeout - t`. -/
theorem pollAux_bound (timeout : Nat) :
    ∀ (n t : Nat) (ticks : List MailTick), timeout - t ≤ n →
    (pollAux timeout t ticks).1 ≤ max t (timeout + maxDelta ticks + 3) ∧
    ∀ c, (pollAux timeout t ticks).2 = some c →
      (pollAux timeout t ticks).1 < timeout + maxDelta ticks := by
  intro n
  induction n with
  | zero =>
    intro t ticks hn
    have ht : ¬ t < timeout := by omega
    rw [pollAux]
    simp [ht]
  | succ n ih =>
    intro t ticks hn
    by_cases hlt : t < timeout
    · have hd : (ticks.headD ⟨0, none⟩).connectDelta ≤ maxDelta ticks :=
        headD_delta_le ticks
      have hmt : maxDelta ticks.tail ≤ maxDelta ticks := maxDelta_tail_le ticks
      rw [pollAux]
      simp only [dif_pos hlt]
      rcases hf : (ticks.headD ⟨0, none⟩).found with _ | c0
      · simp only [hf]
        have ihr := ih (t + (ticks.headD ⟨0, none⟩).connectDelta + 3) ticks.tail (by omega)
        constructor
        · calc (pollAux timeout (t + (ticks.headD ⟨0, none⟩).connectDelta + 3) ticks.tail).1
              ≤ max (t + (ticks.headD ⟨0, none⟩).connectDelta + 3)
                  (timeout + maxDelta ticks.tail + 3) := ihr.1
            _ ≤ max t (timeout + maxDelta ticks + 3) := by
                apply le_max_of_le_right
                apply max_le <;> omega
        · intro c hc
          calc (pollAux timeout (t + (ticks.headD ⟨0, none⟩).connectDelta + 3) ticks.tail).1
              < timeout + maxDelta ticks.tail := ihr.2 c hc
            _ ≤ timeout + maxDelta ticks := by omega
      · simp only [hf]
        constructor
        · apply le_max_of_le_right
          show t + (ticks.headD ⟨0, none⟩).connectDelta ≤ timeout + maxDelta ticks + 3
          omega
        · intro c hc
          show t + (ticks.headD ⟨0, none⟩).connectDelta < timeout + maxDelta ticks
          omega
    · rw [pollAux]
      simp [hlt]

/-- Claim C3, counterexample: with the default 60-unit deadline and a
single mailbox round trip lasting 61 units during which a code is found,
the loop's head test passes at elapsed time 0, the round trip runs past
the deadline, and the code is returned at elapsed time 61 > 60.  The
claimed "never returns a code after its deadline has elapsed" fails. -/
theorem c3_deadline_counterexample :
    wait_for_verification_code 60 [⟨61, some "482913"⟩] = (61, some "482913") ∧
    60 < 61 := by
  constructor
  · unfold wait_for_verification_code
    rw [pollAux]
    norm_num
  · norm_num

/-- Claim C3 (amended): the loop checks elapsed wall-clock time against
the deadline at the head of every iteration, so a code is only ever
returned from an iteration that began before the deadline: the return
time is strictly below `deadline + (largest mailbox round trip)`, and the
caller is never blocked past `deadline + (largest round trip) + one poll
interval (3)` — one `check_interval` more than the claim allowed, because
`time.sleep(3)` runs after an unsuccessful tick before the deadline is
re-tested. -/
theorem c3_poller_bound_amended :
    ∀ (timeout : Nat) (ticks : List MailTick),
    (wait_for_verification_code timeout ticks).1 ≤ timeout + maxDelta ticks + 3 ∧
    ∀ c, (wait_for_verification_code timeout ticks).2 = some c →
      (wait_for_verification_code timeout ticks).1 < timeout + maxDelta ticks := by
  intro timeout ticks
  have h := pollAux_bound timeout timeout 0 ticks (by omega)
  unfold wait_for_verification_code
  constructor
  · simpa using h.1
  · exact fun c hc => h.2 c hc

/-- Claim C3, witness: a code found during a 2-unit round trip inside the
deadline is returned before `deadline + largest round trip`. -/
theorem c3_witness :
    (wait_for_verification_code 60 [⟨2, some "482913"⟩]).1 <
      60 + maxDelta [⟨2, some "482913"⟩] :=
  (c3_poller_bound_amended 60 [⟨2, some "482913"⟩]).2 "482913" (by
    unfold wait_for_verification_code
    rw [pollAux]
    norm_num)

/-! ## Claims C4, C5, C7, C8, C10: helper projection lemmas -/

/-- The scrape continuation polls only if its caller already did. -/
theorem finishScrape_polled (w : SWorld) (la po : Bool) :
    (finishScrape w la po).polled = po := rfl

/-! ## Claim C4 -/

/-- Claim C4: when the login attempt fails and the location carries a
checkpoint or verification marker, absent mailbox credentials the run
returns `VERIFICATION_REQUIRED` without polling; and in every run
whatsoever, the verification poller is invoked only when both mailbox
credentials are supplied (truthy). -/
theorem c4_verification_required_gate :
    (∀ (url e p : Option String) (cookies : Option (List Cookie)) (gE gP : Option String)
      (w : SWorld),
      w.setupOk = true →
      cookieSessionValid cookies w = false →
      w.loginRes.1 = false →
      (hasSubstr w.urlAfterLogin "checkpoint" ||
        hasSubstr w.urlAfterLogin "verification") = true →
      (truthyOptStr gE && truthyOptStr gP) = false →
      (scrape_with_session url e p cookies gE gP w).result =
        .err "VERIFICATION_REQUIRED"
          (pyOr w.loginRes.2 "Verification required but no Gmail credentials provided") ∧
      (scrape_with_session url e p cookies gE gP w).polled = false) ∧
    (∀ (url e p : Option String) (cookies : Option (List Cookie)) (gE gP : Option String)
      (w : SWorld),
      (scrape_with_session url e p cookies gE gP w).polled = true →
      truthyOptStr gE = true ∧ truthyOptStr gP = true) := by
  constructor
  · intro url e p cookies gE gP w hs hv hl hm hg
    simp [scrape_with_session, hs, hv, hl, hm, hg, earlyErr]
  · intro url e p cookies gE gP w h
    by_cases hg1 : truthyOptStr gE = true
    · by_cases hg2 : truthyOptStr gP = true
      · exact ⟨hg1, hg2⟩
      · by_cases hs : w.setupOk = true <;>
          by_cases hv : cookieSessionValid cookies w = true <;>
          by_cases hl : w.loginRes.1 = true <;>
          by_cases hm : (hasSubstr w.urlAfterLogin "checkpoint" ||
            hasSubstr w.urlAfterLogin "verification") = true <;>
          simp_all [scrape_with_session, finishScrape_polled, earlyErr]
    · by_cases hs : w.setupOk = true <;>
        by_cases hv : cookieSessionValid cookies w = true <;>
        by_cases hl : w.loginRes.1 = true <;>
        by_cases hm : (hasSubstr w.urlAfterLogin "checkpoint" ||
          hasSubstr w.urlAfterLogin "verification") = true <;>
        simp_all [scrape_with_session, finishScrape_polled, earlyErr]

/-- The world of the C4 witness: a failed login landing on a checkpoint
URL, with no mailbox credentials anywhere. -/
def c4World : SWorld :=
  { setupOk := true, setupErr := "", cookieLoad := ⟨true, []⟩,
    urlAfterCookieNav := "",
    loginRes := (false, some "LinkedIn security checkpoint - account may need verification"),
    urlAfterLogin := "https://www.linkedin.com/checkpoint/challenge/verify",
    pollerCode := none, codeSubmitOk := true, codeSubmitErr := "",
    urlAfterSubmit := "", driverCookies := [] }

/-- Claim C4, witness at a concrete checkpoint-failure world. -/
theorem c4_witness :
    (scrape_with_session none (some "user@example.com") (some "pw") none none none
        c4World).result =
      .err "VERIFICATION_REQUIRED"
        (pyOr c4World.loginRes.2
          "Verification required but no Gmail credentials provided") ∧
    (scrape_with_session none (some "user@example.com") (some "pw") none none none
        c4World).polled = false :=
  c4_verification_required_gate.1 none (some "user@example.com") (some "pw")
    none none none c4World rfl (by decide) rfl (by decide) rfl

/-! ## Claim C5 -/

/-- Claim C5: on every exit path of `scrape_with_session` and of
`scrape_profile` — the success return, every classified failure return,
and the handled-exception paths — if a browsing context was created,
`driver.quit()` is invoked before the function returns (the `finally`
blocks at lines 763-768 and 441-446). -/
theorem c5_driver_released :
    (∀ (url e p : Option String) (cookies : Option (List Cookie)) (gE gP : Option String)
      (w : SWorld),
      (scrape_with_session url e p cookies gE gP w).driverCreated = true →
      (scrape_with_session url e p cookies gE gP w).quitCalled = true) ∧
    (∀ (lu : String) (ae ap ee ep : Option String) (w : PWorld),
      (scrape_profile lu ae ap ee ep w).driverCreated = true →
      (scrape_profile lu ae ap ee ep w).quitCalled = true) := by
  constructor
  · intro url e p cookies gE gP w
    unfold scrape_with_session finishScrape earlyErr
    repeat' split
    all_goals simp
  · intro lu ae ap ee ep w
    unfold scrape_profile
    repeat' split
    all_goals simp_all [apply_ite ProfileRun.driverCreated, apply_ite ProfileRun.quitCalled]

/-- The world of the C5 witness: a clean successful run. -/
def c5World : SWorld :=
  { setupOk := true, setupErr := "", cookieLoad := ⟨true, []⟩,
    urlAfterCookieNav := "", loginRes := (true, none),
    urlAfterLogin := "https://www.linkedin.com/feed/",
    pollerCode := none, codeSubmitOk := true, codeSubmitErr := "",
    urlAfterSubmit := "", driverCookies := [] }

/-- Claim C5, witness: both orchestrators release the driver on a
concrete run that created one. -/
theorem c5_witness :
    (scrape_with_session none (some "user@example.com") (some "pw") none none none
      c5World).quitCalled = true ∧
    (scrape_profile "https://www.linkedin.com/in/someone/" (some "user@example.com")
      (some "pw") none none ⟨true, "", (false, some "bad password"), true, ""⟩).quitCalled =
      true :=
  ⟨c5_driver_released.1 none (some "user@example.com") (some "pw") none none none
      c5World (by decide),
   c5_driver_released.2 "https://www.linkedin.com/in/someone/" (some "user@example.com")
      (some "pw") none none ⟨true, "", (false, some "bad password"), true, ""⟩ (by decide)⟩

/-! ## Claim C7 -/

/-- Claim C7, counterexample: with two cookies of which the driver rejects
the second, the diagnostic of line 482 reports `len(cookies) = 2`, while
only 1 cookie was accepted — the count reported afterward is the number
of cookies supplied, not the number accepted. -/
theorem c7_reported_count_counterexample :
    load_cookies_to_driver [⟨"li_at", "a"⟩, ⟨"bcookie", "b"⟩] ⟨true, [true, false]⟩ =
      { ret := true, reported := some 2, accepted := 1 } ∧ (2 : Nat) ≠ 1 := by
  decide

/-- Claim C7 (amended): an individually rejected cookie is skipped — the
function still returns `True` and reports a count, but the count reported
is the total number of cookies supplied, independent of how many were
accepted; a wholesale failure (navigation raising) returns `False`; and
the caller degrades an unvalidated session to a fresh login rather than
failing: whenever the injected cookies do not validate, `scrape_with_session`
proceeds to `login_to_linkedin`. -/
theorem c7_cookie_load_amended :
    (∀ (cs : List Cookie) (w : CookieLoadW),
      (cs ≠ [] → w.navOk = true →
        (load_cookies_to_driver cs w).ret = true ∧
        (load_cookies_to_driver cs w).reported = some cs.length ∧
        (load_cookies_to_driver cs w).accepted = acceptedCount cs.length w.accept) ∧
      (w.navOk = false → (load_cookies_to_driver cs w).ret = false)) ∧
    (∀ (url e p : Option String) (cookies : Option (List Cookie)) (gE gP : Option String)
      (sw : SWorld), sw.setupOk = true →
      cookieSessionValid cookies sw = false →
      (scrape_with_session url e p cookies gE gP sw).loginAttempted = true) := by
  constructor
  · intro cs w
    constructor
    · intro hne hnav
      have he : cs.isEmpty = false := by
        cases cs with
        | nil => exact absurd rfl hne
        | cons a l => rfl
      simp [load_cookies_to_driver, he, hnav]
    · intro hnav
      unfold load_cookies_to_driver
      cases he : cs.isEmpty <;> simp [hnav]
  · intro url e p cookies gE gP sw hs hv
    unfold scrape_with_session finishScrape earlyErr
    simp only [hs, hv]
    repeat' split
    all_goals simp_all

/-- Claim C7, witness: a singleton cookie set that loads cleanly, and a
session world whose cookies fail validation and which therefore logs in. -/
theorem c7_witness :
    ((load_cookies_to_driver [⟨"li_at", "v"⟩] ⟨true, []⟩).ret = true ∧
      (load_cookies_to_driver [⟨"li_at", "v"⟩] ⟨true, []⟩).reported = some 1 ∧
      (load_cookies_to_driver [⟨"li_at", "v"⟩] ⟨true, []⟩).accepted =
        acceptedCount 1 []) ∧
    (scrape_with_session none (some "user@example.com") (some "pw")
      (some [⟨"li_at", "stale"⟩]) none none
      { c4World with urlAfterCookieNav := "https://www.linkedin.com/login" }).loginAttempted =
      true :=
  ⟨(c7_cookie_load_amended.1 [⟨"li_at", "v"⟩] ⟨true, []⟩).1 (by decide) rfl,
   c7_cookie_load_amended.2 none (some "user@example.com") (some "pw")
     (some [⟨"li_at", "stale"⟩]) none none
     { c4World with urlAfterCookieNav := "https://www.linkedin.com/login" }
     rfl (by decide)⟩

/-! ## Claim C8 -/

/-- The world of the C8 failing input: injected cookies validate (the
profile navigation lands on the profile, no login/checkpoint marker), the
driver's jar is read at line 674, and the run reaches the scrape step. -/
def c8World : SWorld :=
  { setupOk := true, setupErr := "", cookieLoad := ⟨true, []⟩,
    urlAfterCookieNav := "https://www.linkedin.com/in/someone/",
    loginRes := (false, none), urlAfterLogin := "",
    pollerCode := none, codeSubmitOk := true, codeSubmitErr := "",
    urlAfterSubmit := "", driverCookies := [⟨"li_at", "rotated-by-site"⟩] }

/-- Claim C8, the code bug at the failing input: given cookies that
validate, the run does skip `login_to_linkedin` — but it can never reach
a successful result.  `from linkedin_scraper import Person` (line 328) is
local to `scrape_profile`, so the `Person(...)` call of
`scrape_with_session` at line 680 always raises
`NameError: name \x27Person\x27 is not defined`; the `except` block
classifies that message as `SCRAPE_ERROR` and returns it (with no cookies
field), and the success dict of lines 725-745 is dead code.  The driver
is still released. -/
theorem c8_person_undefined_bug :
    (scrape_with_session (some "https://www.linkedin.com/in/someone/") none none
        (some [⟨"li_at", "original"⟩]) none none c8World).result =
      .err "SCRAPE_ERROR" personNameError ∧
    (scrape_with_session (some "https://www.linkedin.com/in/someone/") none none
        (some [⟨"li_at", "original"⟩]) none none c8World).loginAttempted = false ∧
    (scrape_with_session (some "https://www.linkedin.com/in/someone/") none none
        (some [⟨"li_at", "original"⟩]) none none c8World).quitCalled = true ∧
    (∀ (url e p : Option String) (cookies : Option (List Cookie))
      (gE gP : Option String) (w : SWorld) (cs : List Cookie),
      (scrape_with_session url e p cookies gE gP w).result ≠ .ok cs) := by
  refine ⟨by decide, by decide, by decide, ?_⟩
  intro url e p cookies gE gP w cs
  unfold scrape_with_session finishScrape earlyErr
  repeat' split
  all_goals simp

/-! ## Claim C10 -/

/-- The world of the C10 counterexample: the login attempt fails and the
browser stays on the login page. -/
def c10World : SWorld :=
  { setupOk := true, setupErr := "", cookieLoad := ⟨true, []⟩,
    urlAfterCookieNav := "",
    loginRes := (false, some "Login failed - still on login page"),
    urlAfterLogin := "https://www.linkedin.com/login",
    pollerCode := none, codeSubmitOk := true, codeSubmitErr := "",
    urlAfterSubmit := "", driverCookies := [] }

/-- Claim C10, counterexample: in stdin mode a request whose `url` field
is missing is *not* rejected before navigation — `scrape_with_session`
runs with `url = None`, the browsing context is created, the login page
is visited, and the run fails later with `AUTH_FAILED`, not with an input
error type. -/
theorem c10_stdin_missing_url_counterexample :
    (main_stdin (.parsed
        { url := none, email := some "user@example.com", password := some "pw",
          cookies := none, gmailEmail := none, gmailAppPassword := none })
        c10World).driverCreated = true ∧
    (main_stdin (.parsed
        { url := none, email := some "user@example.com", password := some "pw",
          cookies := none, gmailEmail := none, gmailAppPassword := none })
        c10World).success = false ∧
    (main_stdin (.parsed
        { url := none, email := some "user@example.com", password := some "pw",
          cookies := none, gmailEmail := none, gmailAppPassword := none })
        c10World).errorType = some "AUTH_FAILED" := by
  decide

/-- Claim C10 (amended): a malformed stdin body is rejected as
`INPUT_ERROR` before a browsing context exists; in legacy mode a missing
URL is rejected as `INVALID_INPUT` and a URL without `linkedin.com` as
`INVALID_URL`, both before any navigation; but in stdin mode a missing
URL is not rejected up front — the run proceeds to create a browsing
context whenever the driver can be set up. -/
theorem c10_input_rejection_amended :
    (∀ (m : String) (w : SWorld),
      (main_stdin (.malformed m) w).success = false ∧
      (main_stdin (.malformed m) w).errorType = some "INPUT_ERROR" ∧
      (main_stdin (.malformed m) w).driverCreated = false) ∧
    (∀ (ae ap ee ep : Option String) (w : PWorld),
      (main_legacy none ae ap ee ep w).success = false ∧
      (main_legacy none ae ap ee ep w).errorType = some "INVALID_INPUT" ∧
      (main_legacy none ae ap ee ep w).driverCreated = false) ∧
    (∀ (u : String) (ae ap ee ep : Option String) (w : PWorld),
      u ≠ "" → hasSubstr u "linkedin.com" = false →
      (main_legacy (some u) ae ap ee ep w).success = false ∧
      (main_legacy (some u) ae ap ee ep w).errorType = some "INVALID_URL" ∧
      (main_legacy (some u) ae ap ee ep w).driverCreated = false) ∧
    (∀ (r : Request) (w : SWorld), r.url = none → w.setupOk = true →
      (main_stdin (.parsed r) w).driverCreated = true) := by
  refine ⟨fun m w => by simp [main_stdin],
    fun ae ap ee ep w => by simp [main_legacy, truthyOptStr], ?_, ?_⟩
  · intro u ae ap ee ep w hne hni
    have ht : truthyOptStr (some u) = true := by
      have hne2 : u.isEmpty = false := by
        cases h : u.isEmpty
        · rfl
        · exact absurd (String.isEmpty_iff u |>.mp h) hne
      simp [truthyOptStr, hne2]
    simp [main_legacy, ht, hni]
  · intro r w _ hs
    show (main_stdin (.parsed r) w).driverCreated = true
    unfold main_stdin scrape_with_session finishScrape earlyErr
    simp only [hs]
    repeat' split
    all_goals simp_all

/-- Claim C10, witness: the legacy rejection of a non-LinkedIn URL, and
the stdin mode creating a driver despite the missing URL. -/
theorem c10_witness :
    ((main_legacy (some "https://example.com/profile") none none none none
        ⟨true, "", (true, none), true, ""⟩).success = false ∧
      (main_legacy (some "https://example.com/profile") none none none none
        ⟨true, "", (true, none), true, ""⟩).errorType = some "INVALID_URL" ∧
      (main_legacy (some "https://example.com/profile") none none none none
        ⟨true, "", (true, none), true, ""⟩).driverCreated = false) ∧
    (main_stdin (.parsed
        { url := none, email := some "user@example.com", password := some "pw",
          cookies := none, gmailEmail := none, gmailAppPassword := none })
        c10World).driverCreated = true :=
  ⟨c10_input_rejection_amended.2.2.1 "https://example.com/profile" none none none none
      ⟨true, "", (true, none), true, ""⟩ (by decide) (by decide),
   c10_input_rejection_amended.2.2.2
      { url := none, email := some "user@example.com", password := some "pw",
        cookies := none, gmailEmail := none, gmailAppPassword := none }
      c10World rfl rfl⟩

/-! ## Claim C9 -/

/-- `strArgs` distributes over cons. -/
theorem strArgs_cons (d : DiagLine) (l : List DiagLine) :
    strArgs (d :: l) = strArgsOfLine d ++ strArgs l := rfl

/-- `strArgs` distributes over append. -/
theorem strArgs_append (a b : List DiagLine) :
    strArgs (a ++ b) = strArgs a ++ strArgs b := by
  induction a with
  | nil => rfl
  | cons d rest ih =>
    rw [List.cons_append, strArgs_cons, strArgs_cons, ih, List.append_assoc]

/-- The preamble interpolates only the page URL and title. -/
theorem mem_strArgs_preamble (s : String) (w : LoginWorld)
    (h : s ∈ strArgs (preambleDiags w)) :
    s = w.urlAtLogin ∨ s = w.titleAtLogin := by
  simp [strArgs, strArgsOfLine, preambleDiags] at h
  tauto

/-- The email phase interpolates only the email, its read-backs, and the
lookup error text. -/
theorem mem_strArgs_emailPhase (s email : String) (w : LoginWorld)
    (h : s ∈ strArgs (emailPhaseDiags email w)) :
    s = email ∨ s = w.emailReadback1 ∨ s = w.emailReadback2 ∨ s = w.emailFieldErr := by
  unfold emailPhaseDiags at h
  by_cases hf : w.emailFieldFound = true <;>
    by_cases hr : w.emailReadback1.isEmpty = true <;>
    simp [hf, hr, strArgs, strArgsOfLine] at h <;> tauto

/-- The password phase interpolates no string except the lookup error
text — the password itself appears only as its length. -/
theorem mem_strArgs_pwPhase (s pw : String) (w : LoginWorld)
    (h : s ∈ strArgs (pwPhaseDiags pw w)) : s = w.pwFieldErr := by
  unfold pwPhaseDiags at h
  by_cases hf : w.pwFieldFound = true <;>
    by_cases hr : w.pwReadback1.isEmpty = true <;>
    simp [hf, hr, strArgs, strArgsOfLine] at h <;> tauto

/-- The button phase interpolates only the click error text. -/
theorem mem_strArgs_button (s : String) (w : LoginWorld)
    (h : s ∈ strArgs (buttonDiags w)) : s = w.buttonErr := by
  unfold buttonDiags at h
  by_cases hb : w.buttonOk = true <;>
    simp [hb, strArgs, strArgsOfLine] at h <;> tauto

/-- An `invalidCredentials` classification carries exactly the observed
error-element text. -/
theorem classify_invalid_eq (u : String) (e : Option String) (p t : String)
    (h : classifyPostLogin u e p = .invalidCredentials t) : e = some t := by
  rcases e with _ | t'
  · unfold classifyPostLogin at h
    split_ifs at h <;> simp_all
  · unfold classifyPostLogin at h
    split_ifs at h <;> simp_all

/-- The post-login phase interpolates only the destination URL, the page
title, and the error-element text. -/
theorem mem_strArgs_post (s : String) (w : LoginWorld)
    (h : s ∈ strArgs (postDiags w)) :
    s = w.postUrl ∨ s = w.postTitle ∨ s = w.errorElemText.getD "" := by
  unfold postDiags classifyDiag at h
  rcases hc : classifyPostLogin w.postUrl w.errorElemText w.pageSource with
    _ | _ | _ | _ | t | _ | _ | _ | u0 <;>
    rw [hc] at h <;> simp [strArgs, strArgsOfLine] at h
  all_goals try tauto
  have := classify_invalid_eq w.postUrl w.errorElemText w.pageSource t hc
  rcases h with h | h | h <;> simp [this, Option.getD] <;> tauto

/-- Preamble interpolations land in the oracle-string set. -/
theorem mem_ora_preamble (s email : String) (w : LoginWorld) :
    s ∈ strArgs (preambleDiags w) → s ∈ loginOracleStrings email w := by
  intro h
  have := mem_strArgs_preamble s w h
  simp only [loginOracleStrings, List.mem_cons, List.not_mem_nil, or_false]
  tauto

/-- Email-phase interpolations land in the oracle-string set. -/
theorem mem_ora_emailPhase (s email : String) (w : LoginWorld) :
    s ∈ strArgs (emailPhaseDiags email w) → s ∈ loginOracleStrings email w := by
  intro h
  have := mem_strArgs_emailPhase s email w h
  simp only [loginOracleStrings, List.mem_cons, List.not_mem_nil, or_false]
  tauto

/-- Password-phase interpolations land in the oracle-string set. -/
theorem mem_ora_pwPhase (s email pw : String) (w : LoginWorld) :
    s ∈ strArgs (pwPhaseDiags pw w) → s ∈ loginOracleStrings email w := by
  intro h
  have := mem_strArgs_pwPhase s pw w h
  simp only [loginOracleStrings, List.mem_cons, List.not_mem_nil, or_false]
  tauto

/-- Button-phase interpolations land in the oracle-string set. -/
theorem mem_ora_button (s email : String) (w : LoginWorld) :
    s ∈ strArgs (buttonDiags w) → s ∈ loginOracleStrings email w := by
  intro h
  have := mem_strArgs_button s w h
  simp only [loginOracleStrings, List.mem_cons, List.not_mem_nil, or_false]
  tauto

/-- Post-login interpolations land in the oracle-string set. -/
theorem mem_ora_post (s email : String) (w : LoginWorld) :
    s ∈ strArgs (postDiags w) → s ∈ loginOracleStrings email w := by
  intro h
  have := mem_strArgs_post s w h
  simp only [loginOracleStrings, List.mem_cons, List.not_mem_nil, or_false]
  tauto

/-- The world of the C9 theorems: a routine successful login. -/
def c9World : LoginWorld :=
  { urlAtLogin := "https://www.linkedin.com/login", titleAtLogin := "LinkedIn Login",
    emailFieldFound := true, emailFieldErr := "",
    emailReadback1 := "alice@example.com", emailReadback2 := "",
    pwFieldFound := true, pwFieldErr := "", pwReadback1 := "********", pwReadback2 := "",
    buttonOk := true, buttonErr := "",
    postUrl := "https://www.linkedin.com/feed/", postTitle := "Feed | LinkedIn",
    errorElemText := none, pageSource := "" }

/-- Claim C9, counterexample: on an ordinary login run the diagnostic of
line 187, `Email entered via JS: {email}`, emits the identity in
cleartext — a rendered diagnostic line contains the email. -/
theorem c9_identity_logged_counterexample :
    ((login_to_linkedin "alice@example.com" "s3cret-hunter2" c9World).1.map render).any
      (fun line => hasSubstr line "alice@example.com") = true := by
  decide

set_option maxHeartbeats 1000000 in
/-- Claim C9 (amended): every string the login flow interpolates into a
diagnostic is either the identity or a driver-observed oracle string —
the secret is never among them (only its length is printed), so a secret
that coincides with none of those strings never reaches the diagnostics;
the identity, however, is interpolated in cleartext whenever the email
field is found. -/
theorem c9_secret_never_logged_amended :
    ∀ (email pw : String) (w : LoginWorld),
    (∀ s ∈ strArgs (login_to_linkedin email pw w).1, s ∈ loginOracleStrings email w) ∧
    (pw ∉ loginOracleStrings email w →
      pw ∉ strArgs (login_to_linkedin email pw w).1) ∧
    (w.emailFieldFound = true → email ∈ strArgs (login_to_linkedin email pw w).1) := by
  intro email pw w
  have main : ∀ s ∈ strArgs (login_to_linkedin email pw w).1,
      s ∈ loginOracleStrings email w := by
    intro s hs
    unfold login_to_linkedin at hs
    by_cases he : emailPhaseOk w = true <;> by_cases hp : pwPhaseOk w = true <;>
      by_cases hb : w.buttonOk = true <;>
      simp only [he, hp, hb, Bool.not_true, Bool.not_false, if_true, if_false,
        Bool.false_eq_true, Bool.true_eq_false, ite_true, ite_false] at hs <;>
      simp only [strArgs_append, List.mem_append] at hs
    all_goals (
      have l1 := mem_ora_preamble s email w
      have l2 := mem_ora_emailPhase s email w
      have l3 := mem_ora_pwPhase s email pw w
      have l4 := mem_ora_button s email w
      have l5 := mem_ora_post s email w
      tauto)
  refine ⟨main, fun hnm hmem => hnm (main pw hmem), ?_⟩
  intro hf
  have hm : email ∈ strArgs (emailPhaseDiags email w) := by
    unfold emailPhaseDiags
    by_cases hr : w.emailReadback1.isEmpty = true <;>
      simp [hf, hr, strArgs, strArgsOfLine]
  unfold login_to_linkedin
  by_cases he : emailPhaseOk w = true <;> by_cases hp : pwPhaseOk w = true <;>
    by_cases hb : w.buttonOk = true <;>
    simp only [he, hp, hb, Bool.not_true, Bool.not_false, if_true, if_false,
      Bool.false_eq_true, Bool.true_eq_false, ite_true, ite_false] <;>
    simp only [strArgs_append, List.mem_append] <;> tauto

/-- Claim C9, witness: on the concrete run, a secret distinct from every
observed string never reaches the diagnostics, while the identity does. -/
theorem c9_witness :
    "s3cret-hunter2" ∉
      strArgs (login_to_linkedin "alice@example.com" "s3cret-hunter2" c9World).1 ∧
    "alice@example.com" ∈
      strArgs (login_to_linkedin "alice@example.com" "s3cret-hunter2" c9World).1 :=
  ⟨(c9_secret_never_logged_amended "alice@example.com" "s3cret-hunter2" c9World).2.1
      (by decide),
   (c9_secret_never_logged_amended "alice@example.com" "s3cret-hunter2" c9World).2.2 rfl⟩
